import Mathlib

/-!
Verification of the cooking-assistant routing pipeline
(`backend/agents/cooking_assistant.py`).

The pipeline is a three-node LangGraph state machine behind one FastAPI
endpoint: a classifier node appends a verdict message, a router picks one of
the nodes `researcher_agent` / `refusal`, the chosen node appends one final
assistant message, and the endpoint returns the content of the last message.

Shallow embedding: messages are role-tagged strings; the LangGraph
`add_messages` reducer appends new messages to the state; the two external
collaborators (the chat model used by the classifier and the tool-augmented
react agent used by the researcher) are oracles that either return a textual
reply or fail, modelling upstream-provider exceptions; Python `IndexError`
from negative indexing is modelled by `Except.error`.
-/

namespace CookingAssistant

/-- Message roles, as produced by `SystemMessage`, the user dict, and
`AIMessage` in the source. -/
inductive Role
  | system
  | user
  | assistant
deriving DecidableEq

/-- A chat message: role plus textual content. -/
structure Message where
  role : Role
  content : String
deriving DecidableEq

/-- `SystemMessage(content=...)`. -/
def SystemMessage (content : String) : Message := ⟨Role.system, content⟩

/-- `{"role": "user", "content": ...}`. -/
def UserMessage (content : String) : Message := ⟨Role.user, content⟩

/-- `AIMessage(content=...)`. -/
def AIMessage (content : String) : Message := ⟨Role.assistant, content⟩

/-- `isinstance(m, AIMessage)`. -/
def isAIMessage : Message → Bool
  | ⟨Role.assistant, _⟩ => true
  | _ => false

/-- Python `str.lower()`, modelled character-wise (the verdict strings the
router compares against are ASCII, where the two functions agree). -/
def lower (s : String) : String := ⟨s.data.map Char.toLower⟩

/-- The LangGraph `State` TypedDict: `messages: Annotated[list, add_messages]`. -/
structure State where
  messages : List Message
deriving DecidableEq

/-- The `add_messages` reducer: appends the node's returned messages to the
existing list (all messages here are fresh, so no id-based replacement
occurs). -/
def add_messages (old new : List Message) : List Message := old ++ new

/-- The chat-model oracle (`llm.invoke`): receives the ordered message list,
returns the reply content or fails like an upstream provider. -/
def LLM : Type := List Message → Except String String

/-- The input handed to `agent_executor_researcher.invoke`: the dict
`{"input": ..., "chat_history": ...}`. -/
structure AgentCall where
  input : String
  chat_history : String
deriving DecidableEq

/-- The react-agent oracle (`agent_executor_researcher.invoke`): receives the
call dict, returns `response["output"]` or fails. -/
def ToolAgent : Type := AgentCall → Except String String

/-- Line 42: `messages_with_system = [system_message] + state["messages"]`. -/
def classifier_input (system_prompt : String) (state : State) : List Message :=
  SystemMessage system_prompt :: state.messages

/-- `classifier_agent`: delegates the system-prompt-prefixed history to the
chat model and returns the reply as the node's message delta. -/
def classifier_agent (llm : LLM) (system_prompt : String) (state : State) :
    Except String (List Message) :=
  match llm (classifier_input system_prompt state) with
  | Except.error e => Except.error e
  | Except.ok response => Except.ok [AIMessage response]

/-- `refusal`: returns one fixed assistant message as the node's delta. -/
def refusal (_state : State) : List Message :=
  [AIMessage "Your Query is not related to Cooking."]

/-- Python `lst[-2]`: defined when the list has at least 2 elements,
`IndexError` otherwise. -/
def secondToLast? (l : List Message) : Option Message :=
  if l.length < 2 then none else l.get? (l.length - 2)

/-- Line 65-67: builds the call dict for the react agent from
`state["messages"][-2].content`, with an empty `chat_history`. -/
def researcher_call (state : State) : Except String AgentCall :=
  match secondToLast? state.messages with
  | none => Except.error "list index out of range"
  | some m => Except.ok ⟨m.content, ""⟩

/-- `researcher_agent`: delegates the second-to-last message's content to the
react agent and wraps its output in one assistant message. -/
def researcher_agent (agent : ToolAgent) (state : State) :
    Except String (List Message) :=
  match researcher_call state with
  | Except.error e => Except.error e
  | Except.ok call =>
    match agent call with
    | Except.error e => Except.error e
    | Except.ok response => Except.ok [AIMessage response]

/-- `decide_next_node`: reads `state["messages"][-1]` (IndexError if empty),
routes assistant-authored "relevant" (case-insensitively) to the researcher
and everything else to refusal. -/
def decide_next_node (state : State) : Except String String :=
  match state.messages.getLast? with
  | none => Except.error "list index out of range"
  | some last_message =>
    if isAIMessage last_message then
      if lower last_message.content = "relevant" then
        Except.ok "researcher_agent"
      else if lower last_message.content = "irrelevant" then
        Except.ok "refusal"
      else Except.ok "refusal"
    else Except.ok "refusal"

/-- The mapping registered by `add_conditional_edges` on the classifier
node: router label ↦ destination node. -/
def conditional_edges : List (String × String) :=
  [("researcher_agent", "researcher_agent"), ("refusal", "refusal")]

/-- Execution of the compiled graph from an initial state, instrumented with
the list of node names run: START → classifier_agent → (router label looked
up in `conditional_edges`) → that node → END. The state is threaded with
the `add_messages` reducer. -/
def graph_invoke_trace (system_prompt : String) (llm : LLM) (agent : ToolAgent)
    (init : State) : Except String (List String × State) :=
  match classifier_agent llm system_prompt init with
  | Except.error e => Except.error e
  | Except.ok cls =>
    let s1 : State := ⟨add_messages init.messages cls⟩
    match decide_next_node s1 with
    | Except.error e => Except.error e
    | Except.ok label =>
      match conditional_edges.lookup label with
      | none => Except.error (String.append "branch not in mapping: " label)
      | some node =>
        if node = "researcher_agent" then
          match researcher_agent agent s1 with
          | Except.error e => Except.error e
          | Except.ok msgs =>
            Except.ok (["classifier_agent", "researcher_agent"],
              ⟨add_messages s1.messages msgs⟩)
        else
          Except.ok (["classifier_agent", "refusal"],
            ⟨add_messages s1.messages (refusal s1)⟩)

/-- `graph.invoke`: the final state of the run (trace discarded). -/
def graph_invoke (system_prompt : String) (llm : LLM) (agent : ToolAgent)
    (init : State) : Except String State :=
  match graph_invoke_trace system_prompt llm agent init with
  | Except.error e => Except.error e
  | Except.ok r => Except.ok r.2

/-- The endpoint's observable outcome: HTTP 200 with body
`{"response": ...}`, or the `HTTPException(status_code=500, detail=...)`
raised by the catch-all handler. -/
inductive HttpResponse
  | success (response : String)
  | failure (detail : String)
deriving DecidableEq

/-- `cooking_endpoint`: seeds the state with the one user message, runs the
graph, returns the last message's content; any exception anywhere becomes a
500 with the exception's description. -/
def cooking_endpoint (system_prompt : String) (llm : LLM) (agent : ToolAgent)
    (query : String) : HttpResponse :=
  match graph_invoke system_prompt llm agent ⟨[UserMessage query]⟩ with
  | Except.ok result =>
    match result.messages.getLast? with
    | some m => HttpResponse.success m.content
    | none => HttpResponse.failure "list index out of range"
  | Except.error e => HttpResponse.failure e

/-- A classifier oracle with a fixed verdict (mock collaborator). -/
def llm_const (verdict : String) : LLM := fun _ => Except.ok verdict

/-- A react-agent oracle with a fixed answer (mock collaborator). -/
def agent_const (answer : String) : ToolAgent := fun _ => Except.ok answer

/-- A state as it reaches the researcher node: user query then verdict. -/
def st_example : State :=
  ⟨[UserMessage "How long to boil an egg?", AIMessage "relevant"]⟩

end CookingAssistant
namespace CookingAssistant

/-! ### Helper lemmas shared by the claim theorems -/

/-- The router on a state ending in an assistant message: only the "relevant"
test distinguishes the branches (the "irrelevant" arm and the default arm
both return "refusal"). -/
theorem decide_next_node_snoc_ai (u : Message) (v : String) :
    decide_next_node ⟨[u, AIMessage v]⟩ =
      if lower v = "relevant" then Except.ok "researcher_agent"
      else Except.ok "refusal" := by
  unfold decide_next_node
  have hl : ([u, AIMessage v] : List Message).getLast? = some (AIMessage v) := rfl
  rw [hl]
  simp only [isAIMessage, AIMessage]
  split_ifs <;> rfl

/-- Closed form of a traced graph run seeded with one user message, as a
function of the two oracles. -/
theorem graph_invoke_trace_eq (p : String) (llm : LLM) (agent : ToolAgent)
    (q : String) :
    graph_invoke_trace p llm agent ⟨[UserMessage q]⟩ =
      match llm (classifier_input p ⟨[UserMessage q]⟩) with
      | Except.error e => Except.error e
      | Except.ok v =>
        if lower v = "relevant" then
          match agent ⟨q, ""⟩ with
          | Except.error e => Except.error e
          | Except.ok a =>
            Except.ok (["classifier_agent", "researcher_agent"],
              ⟨[UserMessage q, AIMessage v, AIMessage a]⟩)
        else
          Except.ok (["classifier_agent", "refusal"],
            ⟨[UserMessage q, AIMessage v,
              AIMessage "Your Query is not related to Cooking."]⟩) := by
  unfold graph_invoke_trace classifier_agent
  cases hllm : llm (classifier_input p ⟨[UserMessage q]⟩) with
  | error e => rfl
  | ok v =>
    dsimp only
    simp only [add_messages, List.cons_append, List.nil_append]
    rw [decide_next_node_snoc_ai (UserMessage q) v]
    by_cases hrel : lower v = "relevant"
    · simp only [hrel]
      unfold researcher_agent
      rw [show researcher_call ⟨[UserMessage q, AIMessage v]⟩ =
          Except.ok (⟨q, ""⟩ : AgentCall) from rfl]
      dsimp only
      cases hag : agent (⟨q, ""⟩ : AgentCall) with
      | error e => rfl
      | ok a => rfl
    · rw [if_neg hrel, if_neg hrel]
      rfl

/-- Closed form of `graph.invoke` on a one-user-message seed. -/
theorem graph_invoke_eq (p : String) (llm : LLM) (agent : ToolAgent)
    (q : String) :
    graph_invoke p llm agent ⟨[UserMessage q]⟩ =
      match llm (classifier_input p ⟨[UserMessage q]⟩) with
      | Except.error e => Except.error e
      | Except.ok v =>
        if lower v = "relevant" then
          match agent ⟨q, ""⟩ with
          | Except.error e => Except.error e
          | Except.ok a =>
            Except.ok ⟨[UserMessage q, AIMessage v, AIMessage a]⟩
        else
          Except.ok ⟨[UserMessage q, AIMessage v,
            AIMessage "Your Query is not related to Cooking."]⟩ := by
  unfold graph_invoke
  rw [graph_invoke_trace_eq]
  cases llm (classifier_input p ⟨[UserMessage q]⟩) with
  | error e => rfl
  | ok v =>
    dsimp only
    by_cases hrel : lower v = "relevant"
    · simp only [hrel]
      cases agent (⟨q, ""⟩ : AgentCall) <;> rfl
    · rw [if_neg hrel, if_neg hrel]

/-- Every successful run seeded with one user message ends with exactly the
user message, the verdict message, and one final assistant message. -/
theorem graph_invoke_ok_shape (p : String) (llm : LLM) (agent : ToolAgent)
    (q : String) (st : State)
    (h : graph_invoke p llm agent ⟨[UserMessage q]⟩ = Except.ok st) :
    ∃ v a, st.messages = [UserMessage q, AIMessage v, AIMessage a] := by
  rw [graph_invoke_eq] at h
  cases hllm : llm (classifier_input p ⟨[UserMessage q]⟩) with
  | error e => rw [hllm] at h; exact Except.noConfusion h
  | ok v =>
    rw [hllm] at h
    dsimp only at h
    by_cases hrel : lower v = "relevant"
    · rw [if_pos hrel] at h
      cases hag : agent (⟨q, ""⟩ : AgentCall) with
      | error e => rw [hag] at h; exact Except.noConfusion h
      | ok a =>
        rw [hag] at h
        injection h with h
        exact ⟨v, a, by rw [← h]⟩
    · rw [if_neg hrel] at h
      injection h with h
      exact ⟨v, "Your Query is not related to Cooking.", by rw [← h]⟩

/-- A nonempty list has a last element. -/
theorem getLast?_isSome_of_ne_nil :
    ∀ (l : List Message), l ≠ [] → ∃ m, l.getLast? = some m
  | [], h => absurd rfl h
  | [a], _ => ⟨a, rfl⟩
  | a :: b :: l, _ => by
    obtain ⟨m, hm⟩ := getLast?_isSome_of_ne_nil (b :: l) (by simp)
    exact ⟨m, by rw [show (a :: b :: l).getLast? = (b :: l).getLast? from rfl, hm]⟩

/-! ### Claim theorems -/

/-- C1: for every state whose last message is assistant-authored, the router
selects the researcher node iff the lowercased content equals exactly
"relevant", selects refusal when it equals "irrelevant", and selects refusal
for every other content; for a state whose last message is not
assistant-authored, the router selects refusal. -/
theorem decide_next_node_routing (s : State) (m : Message)
    (h : s.messages.getLast? = some m) :
    (isAIMessage m = true →
      ((decide_next_node s = Except.ok "researcher_agent" ↔
          lower m.content = "relevant") ∧
       (lower m.content = "irrelevant" →
          decide_next_node s = Except.ok "refusal") ∧
       (lower m.content ≠ "relevant" →
          decide_next_node s = Except.ok "refusal"))) ∧
    (isAIMessage m = false → decide_next_node s = Except.ok "refusal") := by
  have hd : decide_next_node s =
      if isAIMessage m then
        if lower m.content = "relevant" then Except.ok "researcher_agent"
        else if lower m.content = "irrelevant" then Except.ok "refusal"
        else Except.ok "refusal"
      else Except.ok "refusal" := by
    unfold decide_next_node
    rw [h]
  rw [hd]
  constructor
  · intro hai
    simp only [hai, if_true]
    refine ⟨⟨fun hok => ?_, fun hrel => by rw [if_pos hrel]⟩,
      fun hirr => ?_, fun hne => ?_⟩
    · by_contra hne
      rw [if_neg hne] at hok
      split_ifs at hok <;> simp_all
    · have hne : lower m.content ≠ "relevant" := by
        rw [hirr]; decide
      rw [if_neg hne, if_pos hirr]
    · rw [if_neg hne]
      split_ifs <;> rfl
  · intro hnai
    simp [hnai]

/-- C1 witness: a state whose last message is the assistant verdict
"Relevant" routes to the researcher node. -/
theorem decide_next_node_routing_witness :
    (⟨[UserMessage "q", AIMessage "Relevant"]⟩ : State).messages.getLast? =
        some (AIMessage "Relevant") ∧
    decide_next_node ⟨[UserMessage "q", AIMessage "Relevant"]⟩ =
        Except.ok "researcher_agent" :=
  ⟨rfl, ((decide_next_node_routing ⟨[UserMessage "q", AIMessage "Relevant"]⟩
      (AIMessage "Relevant") rfl).1 rfl).1.mpr (by decide)⟩

/-- C2 counterexample: a successful run through the research branch ends
with a state of 3 messages, not 2 — the classifier's verdict message is also
appended by the `add_messages` reducer. -/
theorem final_state_two_messages_counterexample :
    (graph_invoke "p" (llm_const "relevant") (agent_const "Boil it.")
      ⟨[UserMessage "How do I boil an egg?"]⟩).map (fun st => st.messages.length) =
      Except.ok 3 := rfl

/-- C2 (amended): for every request that completes successfully, regardless
of branch, the final state contains exactly 3 messages: the original user
message, the classifier's appended verdict message, and exactly one further
appended assistant-authored message. -/
theorem graph_invoke_final_state (p : String) (llm : LLM) (agent : ToolAgent)
    (q : String) (st : State)
    (h : graph_invoke p llm agent ⟨[UserMessage q]⟩ = Except.ok st) :
    st.messages.length = 3 ∧
    ∃ v a, st.messages = [UserMessage q, AIMessage v, AIMessage a] := by
  obtain ⟨v, a, hm⟩ := graph_invoke_ok_shape p llm agent q st h
  exact ⟨by rw [hm]; rfl, v, a, hm⟩

/-- C2 witness: a concrete successful run and its 3-message final state. -/
theorem graph_invoke_final_state_witness :
    graph_invoke "p" (llm_const "relevant") (agent_const "Boil it.")
        ⟨[UserMessage "q"]⟩ =
      Except.ok ⟨[UserMessage "q", AIMessage "relevant", AIMessage "Boil it."]⟩ ∧
    ((⟨[UserMessage "q", AIMessage "relevant", AIMessage "Boil it."]⟩ : State).messages.length = 3 ∧
      ∃ v a, (⟨[UserMessage "q", AIMessage "relevant", AIMessage "Boil it."]⟩ : State).messages =
        [UserMessage "q", AIMessage v, AIMessage a]) :=
  ⟨rfl, graph_invoke_final_state "p" (llm_const "relevant") (agent_const "Boil it.") "q" _ rfl⟩

/-- C3 counterexample: the research step's delegated call carries an empty
chat history, not the full message history of the request. -/
theorem full_history_replay_counterexample :
    (researcher_call st_example).map AgentCall.chat_history = Except.ok "" := rfl

/-- C3 (amended): the classifier's delegated call receives the full ordered
message history (prefixed with the fixed system instruction), but the
research step's delegated call receives an empty chat history — only the
extracted question is passed. -/
theorem delegated_call_histories (p : String) (s : State) :
    classifier_input p s = SystemMessage p :: s.messages ∧
    (∀ c, researcher_call s = Except.ok c → c.chat_history = "") := by
  refine ⟨rfl, fun c hc => ?_⟩
  unfold researcher_call at hc
  cases hsl : secondToLast? s.messages with
  | none => rw [hsl] at hc; exact Except.noConfusion hc
  | some m =>
    rw [hsl] at hc
    injection hc with hc
    rw [← hc]

/-- C3 witness: the call built from a concrete two-message state has an
empty chat history. -/
theorem delegated_call_histories_witness :
    classifier_input "sys" st_example = SystemMessage "sys" :: st_example.messages ∧
    (⟨"How long to boil an egg?", ""⟩ : AgentCall).chat_history = "" :=
  ⟨(delegated_call_histories "sys" st_example).1,
   (delegated_call_histories "sys" st_example).2 ⟨"How long to boil an egg?", ""⟩ rfl⟩

/-- C4: on every state with at least 2 messages the research step passes
exactly the content of the second-to-last message as the delegated question,
and appends the agent's output as one new assistant message. -/
theorem researcher_agent_extraction (agent : ToolAgent) (s : State)
    (h : 2 ≤ s.messages.length) :
    ∃ m, s.messages.get? (s.messages.length - 2) = some m ∧
      researcher_call s = Except.ok ⟨m.content, ""⟩ ∧
      (∀ out, agent ⟨m.content, ""⟩ = Except.ok out →
        researcher_agent agent s = Except.ok [AIMessage out]) := by
  have hlt : s.messages.length - 2 < s.messages.length := by omega
  have hcall : researcher_call s =
      Except.ok ⟨(s.messages.get ⟨s.messages.length - 2, hlt⟩).content, ""⟩ := by
    unfold researcher_call secondToLast?
    rw [if_neg (show ¬ s.messages.length < 2 by omega), List.get?_eq_get hlt]
  refine ⟨s.messages.get ⟨s.messages.length - 2, hlt⟩, List.get?_eq_get hlt,
    hcall, fun out hout => ?_⟩
  unfold researcher_agent
  rw [hcall]
  dsimp only
  rw [hout]

/-- C4 witness: on the concrete pre-research state the delegated question is
the original user utterance, and the agent's answer is appended. -/
theorem researcher_agent_extraction_witness :
    2 ≤ st_example.messages.length ∧
    ∃ m, st_example.messages.get? (st_example.messages.length - 2) = some m ∧
      researcher_call st_example = Except.ok ⟨m.content, ""⟩ ∧
      (∀ out, agent_const "Seven minutes." ⟨m.content, ""⟩ = Except.ok out →
        researcher_agent (agent_const "Seven minutes.") st_example =
          Except.ok [AIMessage out]) :=
  ⟨by decide, researcher_agent_extraction (agent_const "Seven minutes.") st_example (by decide)⟩

/-- C5: on every input state the refusal step produces exactly one
assistant message with the fixed content "Your Query is not related to
Cooking."; it consults no oracle and always returns. -/
theorem refusal_fixed_message (s : State) :
    refusal s = [AIMessage "Your Query is not related to Cooking."] ∧
    (refusal s).length = 1 ∧
    ∀ m ∈ refusal s, isAIMessage m = true := by
  refine ⟨rfl, rfl, fun m hm => ?_⟩
  simp only [refusal, List.mem_singleton] at hm
  rw [hm]
  rfl

/-- C5 witness: the refusal output on a concrete state, and that its one
message is assistant-authored. -/
theorem refusal_fixed_message_witness :
    refusal st_example = [AIMessage "Your Query is not related to Cooking."] ∧
    isAIMessage (AIMessage "Your Query is not related to Cooking.") = true :=
  ⟨(refusal_fixed_message st_example).1,
   (refusal_fixed_message st_example).2.2 (AIMessage "Your Query is not related to Cooking.")
     (by decide)⟩

/-- C6: on a successful pipeline run the endpoint returns a 200 response
whose body is the content of the final message of the completed state; on
any exception raised anywhere in the pipeline it returns a 500 response
carrying the exception's textual description. -/
theorem cooking_endpoint_contract (p : String) (llm : LLM) (agent : ToolAgent)
    (q : String) :
    (∀ st, graph_invoke p llm agent ⟨[UserMessage q]⟩ = Except.ok st →
      ∃ m, st.messages.getLast? = some m ∧
        cooking_endpoint p llm agent q = HttpResponse.success m.content) ∧
    (∀ e, graph_invoke p llm agent ⟨[UserMessage q]⟩ = Except.error e →
      cooking_endpoint p llm agent q = HttpResponse.failure e) := by
  constructor
  · intro st hst
    obtain ⟨v, a, hm⟩ := graph_invoke_ok_shape p llm agent q st hst
    refine ⟨AIMessage a, by rw [hm]; rfl, ?_⟩
    unfold cooking_endpoint
    rw [hst]
    dsimp only
    rw [hm]
    rfl
  · intro e he
    unfold cooking_endpoint
    rw [he]

/-- C6 witness: a concrete successful run and its 200 response. -/
theorem cooking_endpoint_contract_witness :
    graph_invoke "p" (llm_const "relevant") (agent_const "Done.")
        ⟨[UserMessage "q"]⟩ =
      Except.ok ⟨[UserMessage "q", AIMessage "relevant", AIMessage "Done."]⟩ ∧
    ∃ m, (⟨[UserMessage "q", AIMessage "relevant", AIMessage "Done."]⟩ : State).messages.getLast? =
        some m ∧
      cooking_endpoint "p" (llm_const "relevant") (agent_const "Done.") "q" =
        HttpResponse.success m.content :=
  ⟨rfl, (cooking_endpoint_contract "p" (llm_const "relevant") (agent_const "Done.") "q").1 _ rfl⟩

/-- C7 counterexample: the router is not total over all states — on a state
with zero messages, `state["messages"][-1]` raises an index error instead
of returning a selection. -/
theorem router_total_counterexample :
    decide_next_node ⟨[]⟩ = Except.error "list index out of range" := rfl

/-- C7 (amended): the router is deterministic and total on every state with
at least one message, regardless of the shape of the last message: it then
always returns one of the two selections. -/
theorem router_total_nonempty (s : State) (h : s.messages ≠ []) :
    ∃ r, decide_next_node s = Except.ok r ∧
      (r = "researcher_agent" ∨ r = "refusal") := by
  obtain ⟨m, hm⟩ := getLast?_isSome_of_ne_nil s.messages h
  unfold decide_next_node
  rw [hm]
  dsimp only
  split_ifs <;> exact ⟨_, rfl, by decide⟩

/-- C7 witness: a one-message state gets a selection. -/
theorem router_total_nonempty_witness :
    (⟨[UserMessage "hi"]⟩ : State).messages ≠ [] ∧
    ∃ r, decide_next_node ⟨[UserMessage "hi"]⟩ = Except.ok r ∧
      (r = "researcher_agent" ∨ r = "refusal") :=
  ⟨by decide, router_total_nonempty ⟨[UserMessage "hi"]⟩ (by decide)⟩

/-- C8: every completed execution of the graph runs the classifier first and
then exactly one of the researcher or refusal nodes; the trace has no
repeated node, so there are no cycles and no re-entry. -/
theorem pipeline_flow (p : String) (llm : LLM) (agent : ToolAgent)
    (q : String) (tr : List String) (st : State)
    (h : graph_invoke_trace p llm agent ⟨[UserMessage q]⟩ = Except.ok (tr, st)) :
    tr.head? = some "classifier_agent" ∧
    (tr = ["classifier_agent", "researcher_agent"] ∨
      tr = ["classifier_agent", "refusal"]) ∧
    tr.Nodup := by
  rw [graph_invoke_trace_eq] at h
  cases hllm : llm (classifier_input p ⟨[UserMessage q]⟩) with
  | error e => rw [hllm] at h; exact Except.noConfusion h
  | ok v =>
    rw [hllm] at h
    dsimp only at h
    by_cases hrel : lower v = "relevant"
    · rw [if_pos hrel] at h
      cases hag : agent (⟨q, ""⟩ : AgentCall) with
      | error e => rw [hag] at h; exact Except.noConfusion h
      | ok a =>
        rw [hag] at h
        injection h with h
        simp only [Prod.mk.injEq] at h
        rw [← h.1]
        exact ⟨rfl, Or.inl rfl, by decide⟩
    · rw [if_neg hrel] at h
      injection h with h
      simp only [Prod.mk.injEq] at h
      rw [← h.1]
      exact ⟨rfl, Or.inr rfl, by decide⟩

/-- C8 witness: the trace of a concrete research-branch run. -/
theorem pipeline_flow_witness :
    graph_invoke_trace "p" (llm_const "relevant") (agent_const "Done.")
        ⟨[UserMessage "q"]⟩ =
      Except.ok (["classifier_agent", "researcher_agent"],
        ⟨[UserMessage "q", AIMessage "relevant", AIMessage "Done."]⟩) ∧
    ((["classifier_agent", "researcher_agent"] : List String).head? =
        some "classifier_agent" ∧
      ((["classifier_agent", "researcher_agent"] : List String) =
          ["classifier_agent", "researcher_agent"] ∨
        (["classifier_agent", "researcher_agent"] : List String) =
          ["classifier_agent", "refusal"]) ∧
      (["classifier_agent", "researcher_agent"] : List String).Nodup) :=
  ⟨rfl, pipeline_flow "p" (llm_const "relevant") (agent_const "Done.") "q" _ _ rfl⟩

/-- C9: whenever the router returns, its label is one of "researcher_agent"
and "refusal"; these are exactly the keys of the conditional-edge mapping,
and the label always resolves in that mapping. -/
theorem router_label_in_mapping (s : State) (r : String)
    (h : decide_next_node s = Except.ok r) :
    (r = "researcher_agent" ∨ r = "refusal") ∧
    (conditional_edges.lookup r).isSome = true ∧
    conditional_edges.map Prod.fst = ["researcher_agent", "refusal"] := by
  unfold decide_next_node at h
  cases hl : s.messages.getLast? with
  | none => rw [hl] at h; exact Except.noConfusion h
  | some m =>
    rw [hl] at h
    dsimp only at h
    split_ifs at h <;> (injection h with h; subst h; exact ⟨by decide, rfl, rfl⟩)

/-- C9 witness: the researcher label returned on a concrete state resolves
in the mapping. -/
theorem router_label_in_mapping_witness :
    decide_next_node ⟨[UserMessage "q", AIMessage "relevant"]⟩ =
      Except.ok "researcher_agent" ∧
    (("researcher_agent" = "researcher_agent" ∨ "researcher_agent" = "refusal") ∧
      (conditional_edges.lookup "researcher_agent").isSome = true ∧
      conditional_edges.map Prod.fst = ["researcher_agent", "refusal"]) :=
  ⟨rfl, router_label_in_mapping ⟨[UserMessage "q", AIMessage "relevant"]⟩
    "researcher_agent" rfl⟩

/-- C10: the research step's delegated input does not depend on the verdict
text — two states with at least 2 messages whose second-to-last messages
agree in content produce identical delegated calls (question and chat
history alike), whatever their last messages are. -/
theorem researcher_call_verdict_independent (s1 s2 : State)
    (h1 : 2 ≤ s1.messages.length) (h2 : 2 ≤ s2.messages.length)
    (hc : (s1.messages.get? (s1.messages.length - 2)).map Message.content =
          (s2.messages.get? (s2.messages.length - 2)).map Message.content) :
    researcher_call s1 = researcher_call s2 := by
  have hlt1 : s1.messages.length - 2 < s1.messages.length := by omega
  have hlt2 : s2.messages.length - 2 < s2.messages.length := by omega
  unfold researcher_call secondToLast?
  rw [if_neg (show ¬ s1.messages.length < 2 by omega),
    if_neg (show ¬ s2.messages.length < 2 by omega),
    List.get?_eq_get hlt1, List.get?_eq_get hlt2]
  rw [List.get?_eq_get hlt1, List.get?_eq_get hlt2] at hc
  simp only [Option.map_some', Option.some.injEq] at hc
  dsimp only
  rw [hc]

/-- C10 witness: two states with the same original user utterance but
different verdict messages (and even different lengths) yield the same
delegated call. -/
theorem researcher_call_verdict_independent_witness :
    ((⟨[UserMessage "q", AIMessage "relevant"]⟩ : State).messages.get?
        ((⟨[UserMessage "q", AIMessage "relevant"]⟩ : State).messages.length - 2)).map
        Message.content =
      ((⟨[SystemMessage "x", UserMessage "q", AIMessage "IRRELEVANT"]⟩ : State).messages.get?
        ((⟨[SystemMessage "x", UserMessage "q", AIMessage "IRRELEVANT"]⟩ : State).messages.length - 2)).map
        Message.content ∧
    researcher_call ⟨[UserMessage "q", AIMessage "relevant"]⟩ =
      researcher_call ⟨[SystemMessage "x", UserMessage "q", AIMessage "IRRELEVANT"]⟩ :=
  ⟨by decide, researcher_call_verdict_independent
    ⟨[UserMessage "q", AIMessage "relevant"]⟩
    ⟨[SystemMessage "x", UserMessage "q", AIMessage "IRRELEVANT"]⟩
    (by decide) (by decide) (by decide)⟩

end CookingAssistant
